import Mathlib

set_option autoImplicit false

/-!
Shallow embedding of the multi-tenant contact/support-inbox application.

Pure functions model the request handlers; external services (identity
provider, email sender, payment provider, managed database) appear as
explicit parameters: an `auth : String → Option String` token resolver, a
Boolean email-send outcome, and explicit table states passed in and out.
JavaScript truthiness of optional strings is modelled by `strTruthy`.
Timestamps are epoch milliseconds (`Int`).
-/

/-- Truthiness of an optional JS string: `undefined`, `null` and `""` are falsy. -/
def strTruthy : Option String → Bool
  | none => false
  | some s => s ≠ ""

/-- Bearer-token extraction shared by the handlers:
`authHeader?.startsWith('Bearer ') ? authHeader.slice(7) : null`,
written over the character list so that it computes by `decide`. -/
def bearerToken : Option String → Option String
  | none => none
  | some h =>
    if h.data.take 7 = "Bearer ".data then some (String.mk (h.data.drop 7)) else none

/-- Row of the global `user_roles` table (`user_id` is its primary key). -/
structure RoleRow where
  user_id : String
  role : String
  deriving DecidableEq

/-- Row of the per-tenant `user_memberships` table. -/
structure MembershipRow where
  id : String
  user_id : String
  client_id : String
  role : String
  deriving DecidableEq

/-- Row of the `contact_submissions` table. -/
structure SubmissionRow where
  id : String
  name : String
  email : String
  message : String
  created_at : Int
  status : String
  responded_at : Option Int
  responded_by : Option String
  client_id : Option String
  deriving DecidableEq

/-- Row of the `clients` (tenant) table; `subscription_current_period_end`
is kept as an epoch-millisecond value. -/
structure ClientRow where
  id : String
  name : String
  stripe_customer_id : Option String
  subscription_status : Option String
  subscription_current_period_end : Option Int
  deriving DecidableEq

/-- Row of the `messages` table targeted by `createMarkRespondedHandler`. -/
structure MessageRow where
  id : String
  has_been_responded_to : Bool
  deriving DecidableEq

/-- Row of the `subscriptions` table read by the check-subscription edge function. -/
structure SubscriptionRow where
  user_id : String
  status : String
  deriving DecidableEq

/-- `getUserIdFromToken` (adminReply / adminDelete): returns `null` for a
missing or empty token, otherwise defers to `supabaseService.auth.getUser`,
modelled by the abstract resolver `auth`. -/
def getUserIdFromToken (auth : String → Option String) : Option String → Option String
  | none => none
  | some t => if t = "" then none else auth t

/-- `isAdminUser` (adminReply / adminDelete): reads the first `user_roles` row
for the user (`.eq('user_id', userId).limit(1).single()`) and compares its
role string against `'admin'`. -/
def isAdminUser (user_roles : List RoleRow) (userId : String) : Bool :=
  match user_roles.find? (fun r => r.user_id == userId) with
  | some r => r.role == "admin"
  | none => false

/-- Tables consulted by the `/api/admin/check` handler. -/
structure CheckDb where
  user_roles : List RoleRow
  user_memberships : List MembershipRow
  deriving DecidableEq

/-- Response of the `/api/admin/check` handler, reduced to its status code
on the error paths and to the `isAdmin` payload on the success path. -/
inductive CheckResp where
  | httpError (code : Nat) : CheckResp
  | ok (isAdmin : Bool) : CheckResp
  deriving DecidableEq

/-- The `/api/admin/check` handler (second part of `mark-responded.ts`):
GET only, resolves the bearer token to a user id, answers `isAdmin = true`
when the first `user_roles` row has role `'admin'`, otherwise when some
`user_memberships` row has role `'owner'` or `'admin'`, else `isAdmin = false`. -/
def adminCheckHandler (auth : String → Option String) (db : CheckDb)
    (method : String) (authHeader : Option String) : CheckResp :=
  if method ≠ "GET" then .httpError 405
  else
    match bearerToken authHeader with
    | none => .httpError 401
    | some t =>
      if t = "" then .httpError 401
      else
        match auth t with
        | none => .httpError 401
        | some userId =>
          let roleRow := db.user_roles.find? (fun r => r.user_id == userId)
          if roleRow.any (fun r => r.role == "admin") then .ok true
          else
            let membership := db.user_memberships.find?
              (fun m => m.user_id == userId && (m.role == "owner" || m.role == "admin"))
            if membership.isSome then .ok true else .ok false

/-- Request body of the mark-responded endpoint; the handler reads
`req.body.messageId`, the inbox sends `{ id }`, so both fields are kept. -/
structure MarkBody where
  messageId : Option String
  id : Option String
  deriving DecidableEq

/-- State touched by the mark-responded flow: the `messages` table the
handler writes and the `contact_submissions` table the inbox displays. -/
structure MarkDb where
  messages : List MessageRow
  contact_submissions : List SubmissionRow
  deriving DecidableEq

/-- `.from('messages').update({ has_been_responded_to: true }).eq('id', messageId)` -/
def updateMessages (l : List MessageRow) (mid : String) : List MessageRow :=
  l.map (fun m => if m.id == mid then { m with has_been_responded_to := true } else m)

/-- Handler returned by `createMarkRespondedHandler`: it receives the request
headers but never inspects them (no token resolution, no role check); it
only requires a truthy `messageId`, then updates the `messages` table.
Returns the HTTP status and the new state. -/
def markRespondedHandler (authHeader : Option String) (db : MarkDb) (body : MarkBody) :
    Nat × MarkDb :=
  match body.messageId with
  | none => (400, db)
  | some mid =>
    if mid = "" then (400, db)
    else (200, { db with messages := updateMessages db.messages mid })

/-- Body produced by `Inbox.markResponded`: `JSON.stringify({ id })` —
it carries `id`, not `messageId`. -/
def inboxMarkBody (i : String) : MarkBody :=
  { messageId := none, id := some i }

/-- Request body of the admin reply endpoint. -/
structure ReplyBody where
  submissionId : Option String
  to_email : Option String
  subject : Option String
  body : Option String
  deriving DecidableEq

/-- Tables consulted and mutated by `adminReply`. -/
structure ReplyDb where
  user_roles : List RoleRow
  contact_submissions : List SubmissionRow
  deriving DecidableEq

/-- External side effects of `adminReply`, in issue order. -/
inductive ReplyEffect where
  | sendEmail (toAddr fromAddr subject text : String) : ReplyEffect
  | updateSubmission (submissionId : String) (respondedAt : Int) (respondedBy : String) : ReplyEffect
  deriving DecidableEq

/-- Result of `adminReply`: HTTP status, final database state, effect trace. -/
structure ReplyResult where
  status : Nat
  db : ReplyDb
  effects : List ReplyEffect
  deriving DecidableEq

/-- `.from('contact_submissions').update({ status: 'responded', responded_at,
responded_by }).eq('id', submissionId)`: rewrites the three status columns of
every row whose id matches, leaving all other rows and columns alone. -/
def updateSubmissionRows (l : List SubmissionRow) (sid : String) (now : Int) (uid : String) :
    List SubmissionRow :=
  l.map (fun r =>
    if r.id == sid then
      { r with status := "responded", responded_at := some now, responded_by := some uid }
    else r)

/-- Handler returned by `createAdminReplyHandler` (first part of the reply
module): POST only, requires a configured SendGrid key, resolves the bearer
token, requires the `'admin'` role, requires all four body fields, sends the
email, and only then updates the targeted `contact_submissions` row. A failed
email send is caught and reported as 500 before any row update. `emailOk`
is the outcome of the external `sgMail.send` call; `now` is the clock value
used for `responded_at`. -/
def adminReply (auth : String → Option String) (emailOk : Bool) (now : Int)
    (sendgridApiKey : Option String) (sendgridFrom : String)
    (method : String) (authHeader : Option String) (body : ReplyBody) (db : ReplyDb) :
    ReplyResult :=
  if method ≠ "POST" then ⟨405, db, []⟩
  else if strTruthy sendgridApiKey = false then ⟨500, db, []⟩
  else
    match getUserIdFromToken auth (bearerToken authHeader) with
    | none => ⟨401, db, []⟩
    | some userId =>
      if isAdminUser db.user_roles userId = false then ⟨403, db, []⟩
      else if (strTruthy body.submissionId && strTruthy body.to_email &&
               strTruthy body.subject && strTruthy body.body) = false then ⟨400, db, []⟩
      else
        let sid := body.submissionId.getD ""
        let sendFx := ReplyEffect.sendEmail (body.to_email.getD "") sendgridFrom
          (body.subject.getD "") (body.body.getD "")
        if emailOk = false then ⟨500, db, [sendFx]⟩
        else
          ⟨200,
            { db with contact_submissions :=
                updateSubmissionRows db.contact_submissions sid now userId },
            [sendFx, ReplyEffect.updateSubmission sid now userId]⟩

/-- Request body of the admin delete endpoint; `req.body as DeleteRequestBody`
is a compile-time assertion only, so at runtime both fields are arbitrary
optional strings. -/
structure DeleteBody where
  resourceId : Option String
  tableName : Option String
  deriving DecidableEq

/-- Database state visible to `adminDelete`: the typed tables of this
application plus a name-indexed pool for any other table a request may name. -/
structure AdminDb where
  user_roles : List RoleRow
  clients : List ClientRow
  contact_submissions : List SubmissionRow
  other_tables : List (String × List String)
  deriving DecidableEq

/-- Data-store operations issued by `adminDelete`. -/
inductive DeleteEffect where
  | deleteFrom (table : String) (resourceId : String) : DeleteEffect
  deriving DecidableEq

/-- Result of `adminDelete`: HTTP status, final state, effect trace. -/
structure DeleteResult where
  status : Nat
  db : AdminDb
  effects : List DeleteEffect
  deriving DecidableEq

/-- `.from(tableName).delete({ count: 'exact' }).eq('id', resourceId)`:
the target table is chosen purely by the request string. Returns the new
state and the count of deleted rows. -/
def dbDelete (db : AdminDb) (tname rid : String) : AdminDb × Nat :=
  if tname = "clients" then
    let kept := db.clients.filter (fun c => c.id != rid)
    ({ db with clients := kept }, db.clients.length - kept.length)
  else if tname = "contact_submissions" then
    let kept := db.contact_submissions.filter (fun r => r.id != rid)
    ({ db with contact_submissions := kept }, db.contact_submissions.length - kept.length)
  else
    match db.other_tables.find? (fun p => p.1 == tname) with
    | some p =>
      let kept := p.2.filter (fun i => i != rid)
      ({ db with other_tables :=
          db.other_tables.map (fun q => if q.1 == tname then (q.1, kept) else q) },
        p.2.length - kept.length)
    | none => (db, 0)

/-- The allow-list written in `DeleteRequestBody`'s type annotation
(`'contact_submissions' | 'users' | 'other_admin_table'`) — a compile-time
declaration with no runtime counterpart. -/
def declaredTableNames : List String :=
  ["contact_submissions", "users", "other_admin_table"]

/-- `adminDelete`: DELETE only, resolves the bearer token, requires the
`'admin'` role, requires truthy `resourceId` and `tableName`, then issues the
deletion against whatever table the body names; 404 when nothing was deleted. -/
def adminDelete (auth : String → Option String) (method : String)
    (authHeader : Option String) (body : DeleteBody) (db : AdminDb) : DeleteResult :=
  if method ≠ "DELETE" then ⟨405, db, []⟩
  else
    match getUserIdFromToken auth (bearerToken authHeader) with
    | none => ⟨401, db, []⟩
    | some userId =>
      if isAdminUser db.user_roles userId = false then ⟨403, db, []⟩
      else if (strTruthy body.resourceId && strTruthy body.tableName) = false then ⟨400, db, []⟩
      else
        let rid := body.resourceId.getD ""
        let tname := body.tableName.getD ""
        let del := dbDelete db tname rid
        if del.2 = 0 then ⟨404, del.1, [.deleteFrom tname rid]⟩
        else ⟨200, del.1, [.deleteFrom tname rid]⟩

/-- Verified Stripe webhook events, reduced to the fields the handler reads.
`subscriptionChange` covers `customer.subscription.created` / `updated` /
`deleted`, which share one switch case. -/
inductive StripeEvent where
  | checkoutCompleted (customer : Option String) (clientIdMeta : Option String) : StripeEvent
  | subscriptionChange (customer : String) (subStatus : String)
      (current_period_end : Option Int) : StripeEvent
  | otherEvent : StripeEvent
  deriving DecidableEq

/-- Tables touched by the Stripe webhook handler. -/
structure WebhookDb where
  clients : List ClientRow
  stripe_events : List String
  deriving DecidableEq

/-- `new Date((subscription.current_period_end || 0) * 1000).toISOString()`,
modelled as the epoch-millisecond value of the resulting timestamp. -/
def periodEndMs (cpe : Option Int) : Int :=
  (cpe.getD 0) * 1000

/-- The field assignment of the subscription-event branch:
`{ subscription_status: status, subscription_current_period_end }`. -/
def subUpdate (subStatus : String) (cpe : Option Int) (c : ClientRow) : ClientRow :=
  { c with subscription_status := some subStatus,
           subscription_current_period_end := some (periodEndMs cpe) }

/-- The whole subscription-event branch over the clients table: look up the
first row whose `stripe_customer_id` matches the event customer
(`.eq('stripe_customer_id', customerId).limit(1).single()`), and if one
exists rewrite the two subscription columns of the rows carrying its id
(`.update(...).eq('id', clientId)`). -/
def subSync (cust subStatus : String) (cpe : Option Int) (l : List ClientRow) :
    List ClientRow :=
  match l.find? (fun c => c.stripe_customer_id == some cust) with
  | none => l
  | some client =>
    l.map (fun c => if c.id == client.id then subUpdate subStatus cpe c else c)

/-- The Stripe webhook handler (post-verification body): appends the event to
`stripe_events` for audit, then for `checkout.session.completed` with truthy
`clientId` metadata and customer id sets that clients row's
`stripe_customer_id`; for `customer.subscription.*` finds the first clients
row whose `stripe_customer_id` matches and rewrites its two subscription
columns; every other event only gets audited. -/
def stripeWebhookHandler (db : WebhookDb) (eventId : String) (ev : StripeEvent) : WebhookDb :=
  let db1 : WebhookDb := { db with stripe_events := db.stripe_events ++ [eventId] }
  match ev with
  | .checkoutCompleted customer clientIdMeta =>
    if (strTruthy clientIdMeta && strTruthy customer) = true then
      { db1 with clients := db1.clients.map (fun c =>
          if c.id == clientIdMeta.getD "" then
            { c with stripe_customer_id := some (customer.getD "") }
          else c) }
    else db1
  | .subscriptionChange cust subStatus cpe =>
    { db1 with clients := subSync cust subStatus cpe db1.clients }
  | .otherEvent => db1

/-- JSON values appearing in the check-subscription response body. -/
inductive JVal where
  | jstr (s : String) : JVal
  | jbool (b : Bool) : JVal
  | jnull : JVal
  deriving DecidableEq

/-- The check-subscription edge function (`app.post('/')`): requires a truthy
`user_id`, reads the single `subscriptions` row for the user, and answers
`{ status: 'ok', is_subscribed, subscription_status }`; `is_subscribed` is
the JS value `data && data.status === 'active'` (null when no row). -/
def checkSubscriptionFn (subs : List SubscriptionRow) (user_id : Option String) :
    Nat × List (String × JVal) :=
  if strTruthy user_id = false then (400, [("error", .jstr "User ID is required")])
  else
    let uid := user_id.getD ""
    let row := subs.find? (fun s => s.user_id == uid)
    let is_subscribed : JVal :=
      match row with
      | some r => .jbool (r.status == "active")
      | none => .jnull
    let statusStr : String :=
      match row with
      | some r => if r.status = "" then "none" else r.status
      | none => "none"
    (200,
      [("status", .jstr "ok"),
       ("is_subscribed", is_subscribed),
       ("subscription_status", .jstr statusStr)])

/-- Field access on a JSON object: `body.k`, `none` for an absent key. -/
def jsField (body : List (String × JVal)) (k : String) : Option JVal :=
  (body.find? (fun p => p.1 == k)).map (fun p => p.2)

/-- JS truthiness of a possibly-absent JSON field value. -/
def jvalTruthy : Option JVal → Bool
  | some (.jbool b) => b
  | some (.jstr s) => s ≠ ""
  | some .jnull => false
  | none => false

/-- Outcome of `supabase.functions.invoke`: an error / empty response, or a
successful response with a JSON body. -/
inductive InvokeResult where
  | failure : InvokeResult
  | success (body : List (String × JVal)) : InvokeResult
  deriving DecidableEq

/-- `checkSubscription` from `useAuth`, reduced to the truth value stored in
the `isSubscribed` state after the call: `false` with no session and on the
error / empty-response path, otherwise the truthiness of `data.subscribed`
read from the response body. -/
def checkSubscriptionFlag (session : Option String) (resp : InvokeResult) : Bool :=
  match session with
  | none => false
  | some _ =>
    match resp with
    | .failure => false
    | .success body => jvalTruthy (jsField body "subscribed")

/-- `Math.round`, for the non-negative rationals arising here: ⌊q + 1/2⌋. -/
def jsRound (q : ℚ) : ℤ :=
  ⌊q + 1 / 2⌋

/-- The dashboard stats object set by `useDashboardData`. -/
structure DashStats where
  emailsProcessed : ℕ
  avgResponseTime : ℚ
  satisfactionRate : ℚ
  activeTickets : ℕ
  totalTickets : ℕ
  resolvedTickets : ℕ
  deriving DecidableEq

/-- Shared numerator of the latency computation:
`new Date(r.responded_at).getTime() - new Date(r.created_at).getTime()`. -/
def diffMs (r : SubmissionRow) : ℚ :=
  ((r.responded_at.getD 0 - r.created_at : Int) : ℚ)

/-- Per-row latency as the code computes it:
`Math.max(0, (responded - created) / 1000 / 60)`. -/
def responseMinutes (r : SubmissionRow) : ℚ :=
  max 0 (diffMs r / 1000 / 60)

/-- The stats reduction of `computeStatsForClient` over the fetched rows. -/
def computeStats (rows : List SubmissionRow) : DashStats :=
  let total := rows.length
  let resolved := (rows.filter (fun r => r.status == "responded")).length
  let respondedRows := rows.filter (fun r => r.responded_at.isSome)
  let avgResponseMin : ℚ :=
    if respondedRows.length > 0 then
      (respondedRows.map responseMinutes).sum / (respondedRows.length : ℚ)
    else 0
  { emailsProcessed := total,
    avgResponseTime := ((jsRound (avgResponseMin * 10) : ℤ) : ℚ) / 10,
    satisfactionRate := 0,
    activeTickets := total - resolved,
    totalTickets := total,
    resolvedTickets := resolved }

/-- Reference count from the specification: totalTickets is the number of rows. -/
def specTotalTickets (rows : List SubmissionRow) : ℕ :=
  rows.length

/-- Reference count from the specification: resolvedTickets is the number of
rows with status `'responded'`. -/
def specResolvedTickets (rows : List SubmissionRow) : ℕ :=
  rows.countP (fun r => r.status == "responded")

/-- Reference count from the specification:
activeTickets = totalTickets - resolvedTickets. -/
def specActiveTickets (rows : List SubmissionRow) : ℕ :=
  specTotalTickets rows - specResolvedTickets rows

/-- Per-row latency as the specification states it: max(0, difference in
minutes), with one division by 60000 ms per minute. -/
def specResponseMinutes (r : SubmissionRow) : ℚ :=
  max 0 (diffMs r / 60000)

/-- Reference average from the specification: the arithmetic mean over rows
with non-null `responded_at` of the per-row latency, rounded to one decimal
place, or 0 when no row has `responded_at`. -/
def specAvgResponseTime (rows : List SubmissionRow) : ℚ :=
  let responded := rows.filter (fun r => r.responded_at.isSome)
  if responded.length = 0 then 0
  else
    ((jsRound (((responded.map specResponseMinutes).sum / (responded.length : ℚ)) * 10) : ℤ) : ℚ) / 10

/-- Local state of the `useDashboardData` hook relevant to the claims. -/
structure HookState where
  stats : DashStats
  isLoading : Bool
  deriving DecidableEq

/-- The zero defaults the hook starts from. -/
def initialDashStats : DashStats :=
  { emailsProcessed := 0, avgResponseTime := 0, satisfactionRate := 0,
    activeTickets := 0, totalTickets := 0, resolvedTickets := 0 }

/-- Outcome of the `contact_submissions` query issued by the hook. -/
inductive QueryResult where
  | rowsOk (rows : List SubmissionRow) : QueryResult
  | dbError : QueryResult
  deriving DecidableEq

/-- Result of one `computeStatsForClient` run: the new hook state, how many
queries were issued, and whether an error escaped to the caller. -/
structure FetchResult where
  state : HookState
  queriesIssued : ℕ
  errorEscaped : Bool
  deriving DecidableEq

/-- `computeStatsForClient` from `useDashboardData`: with no signed-in user or
a falsy client id it only clears the loading flag and returns; otherwise it
issues one query and either stores the reduced stats or, on a query error,
logs and keeps the previous stats (`setStats(s => ({ ...s }))`). -/
def computeStatsForClient (user : Option String) (cid : Option String)
    (q : QueryResult) (st : HookState) : FetchResult :=
  if (user.isSome && strTruthy cid) = false then
    ⟨{ st with isLoading := false }, 0, false⟩
  else
    match q with
    | .rowsOk rows => ⟨{ stats := computeStats rows, isLoading := false }, 1, false⟩
    | .dbError => ⟨{ st with isLoading := false }, 1, false⟩

/-- Token resolver used by the concrete scenarios: one known admin token. -/
def authEx : String → Option String :=
  fun t => if t = "admintok" then some "u-admin" else none

/-- Concrete `messages` state for the mark-responded scenarios. -/
def markDbEx : MarkDb :=
  { messages := [{ id := "m1", has_been_responded_to := false }],
    contact_submissions := [] }

/-- Concrete unread submission used by the inbox scenarios. -/
def subEx : SubmissionRow :=
  { id := "s1", name := "Ada", email := "ada@example.test", message := "hi",
    created_at := 0, status := "unread", responded_at := none,
    responded_by := none, client_id := some "c1" }

/-- Concrete state for the inbox mark-responded scenario. -/
def inboxDbEx : MarkDb :=
  { messages := [], contact_submissions := [subEx] }

/-- Concrete role table with one admin. -/
def rolesEx : List RoleRow :=
  [{ user_id := "u-admin", role := "admin" }]

/-- Concrete state for the admin-check scenario. -/
def checkDbEx : CheckDb :=
  { user_roles := rolesEx, user_memberships := [] }

/-- Concrete state for the reply scenario. -/
def replyDbEx : ReplyDb :=
  { user_roles := rolesEx, contact_submissions := [subEx] }

/-- Concrete reply body with all four fields present. -/
def replyBodyEx : ReplyBody :=
  { submissionId := some "s1", to_email := some "ada@example.test",
    subject := some "Re", body := some "hello" }

/-- Concrete tenant row. -/
def clientEx : ClientRow :=
  { id := "c1", name := "Acme", stripe_customer_id := some "cus_1",
    subscription_status := some "active", subscription_current_period_end := some 0 }

/-- Concrete state for the delete scenarios. -/
def adminDbEx : AdminDb :=
  { user_roles := rolesEx, clients := [clientEx],
    contact_submissions := [], other_tables := [] }

/-- Concrete delete body naming the `clients` table. -/
def deleteClientsBody : DeleteBody :=
  { resourceId := some "c1", tableName := some "clients" }

/-- Concrete `subscriptions` table with one active subscription. -/
def subsEx : List SubscriptionRow :=
  [{ user_id := "u1", status := "active" }]


/-! Helper lemmas. -/

/-- With at most one `user_roles` row per user id (its primary key), testing
the first matching row for role `'admin'` is equivalent to the existence of
an admin row for the user. -/
theorem roles_first_admin_iff (l : List RoleRow) (u : String)
    (huniq : (l.filter (fun r => r.user_id == u)).length ≤ 1) :
    ((l.find? (fun r => r.user_id == u)).any (fun r => r.role == "admin")) = true ↔
      ∃ r ∈ l, r.user_id = u ∧ r.role = "admin" := by
  induction l with
  | nil => simp
  | cons a l ih =>
    by_cases ha : a.user_id = u
    · have hfind : (a :: l).find? (fun r => r.user_id == u) = some a :=
        List.find?_cons_of_pos _ (by simp [ha])
      have h0 : (l.filter (fun r => r.user_id == u)).length = 0 := by
        have h1 := huniq
        rw [List.filter_cons_of_pos (by simp [ha])] at h1
        simpa using Nat.succ_le_succ_iff.mp h1
      have hnone : ∀ r ∈ l, ¬ (r.user_id = u) := by
        intro r hr hru
        have hmem : r ∈ l.filter (fun r => r.user_id == u) :=
          List.mem_filter.mpr ⟨hr, by simp [hru]⟩
        rw [List.length_eq_zero.mp h0] at hmem
        simp at hmem
      rw [hfind]
      constructor
      · intro hadm
        exact ⟨a, by simp, ha, by simpa using hadm⟩
      · rintro ⟨r, hr, hru, hrole⟩
        rcases List.mem_cons.mp hr with rfl | hrl
        · simpa using hrole
        · exact absurd hru (hnone r hrl)
    · have hfind : (a :: l).find? (fun r => r.user_id == u) =
          l.find? (fun r => r.user_id == u) :=
        List.find?_cons_of_neg _ (by simp [ha])
      have hfl : (a :: l).filter (fun r => r.user_id == u) =
          l.filter (fun r => r.user_id == u) :=
        List.filter_cons_of_neg (by simp [ha])
      rw [hfind, ih (by rwa [hfl] at huniq)]
      constructor
      · rintro ⟨r, hr, h1, h2⟩
        exact ⟨r, List.mem_cons_of_mem a hr, h1, h2⟩
      · rintro ⟨r, hr, h1, h2⟩
        rcases List.mem_cons.mp hr with rfl | hrl
        · exact absurd h1 ha
        · exact ⟨r, hrl, h1, h2⟩

/-- The membership lookup succeeds exactly when some row of the user carries
role `'owner'` or `'admin'`. -/
theorem memberships_found_iff (l : List MembershipRow) (u : String) :
    (l.find? (fun m => m.user_id == u && (m.role == "owner" || m.role == "admin"))).isSome = true ↔
      ∃ m ∈ l, m.user_id = u ∧ (m.role = "owner" ∨ m.role = "admin") := by
  rw [List.find?_isSome]
  constructor
  · rintro ⟨m, hm, hp⟩
    refine ⟨m, hm, ?_, ?_⟩
    · have := (Bool.and_eq_true _ _).mp hp
      simpa using this.1
    · have := (Bool.and_eq_true _ _).mp hp
      have h2 := this.2
      rcases Bool.or_eq_true_iff.mp h2 with h | h
      · exact Or.inl (by simpa using h)
      · exact Or.inr (by simpa using h)
  · rintro ⟨m, hm, h1, h2⟩
    refine ⟨m, hm, ?_⟩
    rcases h2 with h2 | h2 <;> simp [h1, h2]

/-- A successful token resolution through the shared helper. -/
theorem getUserIdFromToken_some (auth : String → Option String) (hdr : Option String)
    (t u : String) (hhdr : bearerToken hdr = some t) (ht : t ≠ "") (hauth : auth t = some u) :
    getUserIdFromToken auth (bearerToken hdr) = some u := by
  rw [hhdr]
  simp [getUserIdFromToken, ht, hauth]

/-- `subUpdate` leaves the row id unchanged. -/
theorem subUpdate_id (s : String) (cpe : Option Int) (c : ClientRow) :
    (subUpdate s cpe c).id = c.id := rfl

/-- `subUpdate` leaves `stripe_customer_id` unchanged. -/
theorem subUpdate_customer (s : String) (cpe : Option Int) (c : ClientRow) :
    (subUpdate s cpe c).stripe_customer_id = c.stripe_customer_id := rfl

/-- Writing the same constant field values twice is the same as writing once. -/
theorem subUpdate_idem (s : String) (cpe : Option Int) (c : ClientRow) :
    subUpdate s cpe (subUpdate s cpe c) = subUpdate s cpe c := rfl

/-- The subscription-sync branch is idempotent on the clients table. -/
theorem subSync_idem (cust s : String) (cpe : Option Int) (l : List ClientRow) :
    subSync cust s cpe (subSync cust s cpe l) = subSync cust s cpe l := by
  cases hk : l.find? (fun c => c.stripe_customer_id == some cust) with
  | none =>
    have h1 : subSync cust s cpe l = l := by simp [subSync, hk]
    rw [h1]
    exact h1
  | some k =>
    have h1 : subSync cust s cpe l =
        l.map (fun c => if c.id == k.id then subUpdate s cpe c else c) := by
      simp [subSync, hk]
    have hpf : ((fun c : ClientRow => c.stripe_customer_id == some cust) ∘
        (fun c => if c.id == k.id then subUpdate s cpe c else c)) =
        (fun c : ClientRow => c.stripe_customer_id == some cust) := by
      funext c
      simp only [Function.comp_apply]
      split <;> rfl
    have hfind2 : (l.map (fun c => if c.id == k.id then subUpdate s cpe c else c)).find?
        (fun c => c.stripe_customer_id == some cust) = some (subUpdate s cpe k) := by
      rw [List.find?_map, hpf, hk]
      simp
    rw [h1]
    simp only [subSync, hfind2, subUpdate_id]
    rw [List.map_map]
    refine List.map_congr_left ?_
    intro c _
    by_cases hc : c.id = k.id
    · simp [Function.comp_apply, hc, subUpdate_id, subUpdate_idem]
    · simp [Function.comp_apply, hc, subUpdate_id]

/-- Pointwise equality of the code latency and the specification latency:
dividing by 1000 then 60 is dividing by 60000. -/
theorem responseMinutes_eq_spec (r : SubmissionRow) :
    responseMinutes r = specResponseMinutes r := by
  unfold responseMinutes specResponseMinutes
  rw [div_div]
  norm_num

/-! Claim theorems. -/

/-- C1: the specification claims every Submission mutation — including the
mark-responded handler, like the reply and delete handlers — runs only after
a bearer token resolved to a user with an authorizing role, and that no
update happens when authorization fails. The code contradicts it: with no
Authorization header at all, `createMarkRespondedHandler` still performs its
row update and answers 200, while `adminReply` and `adminDelete` under the
same missing header refuse with 401 and leave every table unchanged. -/
theorem markResponded_updates_without_authorization :
    markRespondedHandler none markDbEx { messageId := some "m1", id := none } =
      (200, { markDbEx with messages := [{ id := "m1", has_been_responded_to := true }] }) ∧
    adminReply authEx true 0 (some "sg") "noreply@example.test" "POST" none
      replyBodyEx replyDbEx = ⟨401, replyDbEx, []⟩ ∧
    adminDelete authEx "DELETE" none deleteClientsBody adminDbEx =
      ⟨401, adminDbEx, []⟩ := by
  decide

/-- C2: under a GET request whose bearer token resolves to user `u`, and with
`user_id` a key of `user_roles`, the admin-check endpoint answers
`isAdmin = true` exactly when `u` has global role `'admin'` or some
membership row with role `'owner'` or `'admin'`, and `isAdmin = false`
exactly otherwise. -/
theorem adminCheck_isAdmin_iff (auth : String → Option String) (db : CheckDb)
    (hdr : Option String) (t u : String)
    (hhdr : bearerToken hdr = some t) (ht : t ≠ "") (hauth : auth t = some u)
    (huniq : (db.user_roles.filter (fun r => r.user_id == u)).length ≤ 1) :
    (adminCheckHandler auth db "GET" hdr = CheckResp.ok true ↔
      ((∃ r ∈ db.user_roles, r.user_id = u ∧ r.role = "admin") ∨
       (∃ m ∈ db.user_memberships, m.user_id = u ∧ (m.role = "owner" ∨ m.role = "admin")))) ∧
    (adminCheckHandler auth db "GET" hdr = CheckResp.ok false ↔
      ¬ ((∃ r ∈ db.user_roles, r.user_id = u ∧ r.role = "admin") ∨
         (∃ m ∈ db.user_memberships, m.user_id = u ∧ (m.role = "owner" ∨ m.role = "admin")))) := by
  have hA := roles_first_admin_iff db.user_roles u huniq
  have hB := memberships_found_iff db.user_memberships u
  have hred : adminCheckHandler auth db "GET" hdr =
      (if (db.user_roles.find? (fun r => r.user_id == u)).any (fun r => r.role == "admin") then
        CheckResp.ok true
      else if (db.user_memberships.find?
          (fun m => m.user_id == u && (m.role == "owner" || m.role == "admin"))).isSome then
        CheckResp.ok true
      else CheckResp.ok false) := by
    simp [adminCheckHandler, hhdr, ht, hauth]
  rw [hred]
  by_cases h1 : ((db.user_roles.find? (fun r => r.user_id == u)).any
      (fun r => r.role == "admin")) = true
  · have hp : (∃ r ∈ db.user_roles, r.user_id = u ∧ r.role = "admin") ∨
        (∃ m ∈ db.user_memberships, m.user_id = u ∧ (m.role = "owner" ∨ m.role = "admin")) :=
      Or.inl (hA.mp h1)
    rw [if_pos h1]
    exact ⟨⟨fun _ => hp, fun _ => rfl⟩, ⟨fun hco => by simp at hco, fun hn => (hn hp).elim⟩⟩
  · rw [if_neg h1]
    by_cases h2 : ((db.user_memberships.find?
        (fun m => m.user_id == u && (m.role == "owner" || m.role == "admin"))).isSome) = true
    · have hp : (∃ r ∈ db.user_roles, r.user_id = u ∧ r.role = "admin") ∨
          (∃ m ∈ db.user_memberships, m.user_id = u ∧ (m.role = "owner" ∨ m.role = "admin")) :=
        Or.inr (hB.mp h2)
      rw [if_pos h2]
      exact ⟨⟨fun _ => hp, fun _ => rfl⟩, ⟨fun hco => by simp at hco, fun hn => (hn hp).elim⟩⟩
    · have hnpq : ¬ ((∃ r ∈ db.user_roles, r.user_id = u ∧ r.role = "admin") ∨
          (∃ m ∈ db.user_memberships, m.user_id = u ∧ (m.role = "owner" ∨ m.role = "admin"))) := by
        rintro (hp | hq)
        · exact h1 (hA.mpr hp)
        · exact h2 (hB.mpr hq)
      rw [if_neg h2]
      exact ⟨⟨fun hco => by simp at hco, fun hp => (hnpq hp).elim⟩, ⟨fun _ => hnpq, fun _ => rfl⟩⟩

/-- Witness for C2: in the concrete state the seeded admin is recognised. -/
theorem adminCheck_isAdmin_iff_witness :
    adminCheckHandler authEx checkDbEx "GET" (some "Bearer admintok") = CheckResp.ok true :=
  (adminCheck_isAdmin_iff authEx checkDbEx (some "Bearer admintok") "admintok" "u-admin"
      (by decide) (by decide) (by decide) (by decide)).1.mpr
    (Or.inl ⟨{ user_id := "u-admin", role := "admin" }, by decide, rfl, rfl⟩)

/-- C3: for an authorized reply request with all four fields present, the
handler authorizes first (a failed resolution yields 401 with no effects),
then sends the email, and only after a successful send updates the targeted
`contact_submissions` row's three status columns; on a failed send the trace
holds only the send attempt and the table is unchanged; rows with other ids
survive untouched, the targeted row gets exactly the three status columns
rewritten. -/
theorem adminReply_email_before_update (auth : String → Option String) (now : Int)
    (key : Option String) (fromAddr : String) (hdr : Option String) (t u : String)
    (body : ReplyBody) (db : ReplyDb) (emailOk : Bool)
    (hhdr : bearerToken hdr = some t) (ht : t ≠ "") (hauth : auth t = some u)
    (hkey : strTruthy key = true)
    (hadmin : isAdminUser db.user_roles u = true)
    (hsid : strTruthy body.submissionId = true) (hto : strTruthy body.to_email = true)
    (hsub : strTruthy body.subject = true) (hbody : strTruthy body.body = true) :
    (emailOk = false →
      adminReply auth emailOk now key fromAddr "POST" hdr body db =
        ⟨500, db,
          [ReplyEffect.sendEmail (body.to_email.getD "") fromAddr
            (body.subject.getD "") (body.body.getD "")]⟩) ∧
    (emailOk = true →
      adminReply auth emailOk now key fromAddr "POST" hdr body db =
        ⟨200,
          { db with contact_submissions :=
              updateSubmissionRows db.contact_submissions (body.submissionId.getD "") now u },
          [ReplyEffect.sendEmail (body.to_email.getD "") fromAddr
            (body.subject.getD "") (body.body.getD ""),
           ReplyEffect.updateSubmission (body.submissionId.getD "") now u]⟩) ∧
    (∀ r ∈ db.contact_submissions, r.id ≠ body.submissionId.getD "" →
      r ∈ updateSubmissionRows db.contact_submissions (body.submissionId.getD "") now u) ∧
    (∀ r ∈ db.contact_submissions, r.id = body.submissionId.getD "" →
      { r with status := "responded", responded_at := some now, responded_by := some u } ∈
        updateSubmissionRows db.contact_submissions (body.submissionId.getD "") now u) ∧
    (∀ hdr2 : Option String, getUserIdFromToken auth (bearerToken hdr2) = none →
      adminReply auth emailOk now key fromAddr "POST" hdr2 body db = ⟨401, db, []⟩) := by
  have hresolve := getUserIdFromToken_some auth hdr t u hhdr ht hauth
  refine ⟨?_, ?_, ?_, ?_, ?_⟩
  · intro he
    subst he
    simp [adminReply, hresolve, hadmin, hkey, hsid, hto, hsub, hbody]
  · intro he
    subst he
    simp [adminReply, hresolve, hadmin, hkey, hsid, hto, hsub, hbody]
  · intro r hr hne
    exact List.mem_map.mpr ⟨r, hr, by simp [hne]⟩
  · intro r hr heq
    exact List.mem_map.mpr ⟨r, hr, by simp [heq]⟩
  · intro hdr2 hnone
    simp [adminReply, hnone, hkey]

/-- Witness for C3: the concrete authorized reply with a successful send. -/
theorem adminReply_email_before_update_witness :
    adminReply authEx true 5 (some "sg") "noreply@example.test" "POST"
        (some "Bearer admintok") replyBodyEx replyDbEx =
      ⟨200,
        { replyDbEx with contact_submissions :=
            updateSubmissionRows replyDbEx.contact_submissions "s1" 5 "u-admin" },
        [ReplyEffect.sendEmail "ada@example.test" "noreply@example.test" "Re" "hello",
         ReplyEffect.updateSubmission "s1" 5 "u-admin"]⟩ :=
  (adminReply_email_before_update authEx 5 (some "sg") "noreply@example.test"
      (some "Bearer admintok") "admintok" "u-admin" replyBodyEx replyDbEx true
      (by decide) (by decide) (by decide) (by decide) (by decide)
      (by decide) (by decide) (by decide) (by decide)).2.1 rfl

/-- C4: the claim says the polled `isSubscribed` flag is true exactly when
the check-subscription function reported the stored subscription as active.
The code contradicts it: for a user whose `subscriptions` row has status
`'active'`, the edge function answers 200 with `is_subscribed: true`, yet
the hook reads the absent field `subscribed` from that body, so the stored
flag stays false even on this success response (the error and empty-response
paths also store false, as claimed). -/
theorem checkSubscription_flag_never_true :
    (checkSubscriptionFn subsEx (some "u1")).1 = 200 ∧
    jsField (checkSubscriptionFn subsEx (some "u1")).2 "is_subscribed" =
      some (JVal.jbool true) ∧
    checkSubscriptionFlag (some "sess1")
      (InvokeResult.success (checkSubscriptionFn subsEx (some "u1")).2) = false ∧
    checkSubscriptionFlag (some "sess1") InvokeResult.failure = false ∧
    checkSubscriptionFlag none InvokeResult.failure = false := by
  decide

/-- C5: the claim says no local operation other than the webhook sync
mutates clients rows. The code contradicts it: an authorized `adminDelete`
request naming `tableName: 'clients'` — a table outside even the declared
allow-list — deletes a clients row and answers 200. -/
theorem adminDelete_reaches_clients_table :
    adminDelete authEx "DELETE" (some "Bearer admintok") deleteClientsBody adminDbEx =
      ⟨200, { adminDbEx with clients := [] }, [DeleteEffect.deleteFrom "clients" "c1"]⟩ ∧
    (adminDelete authEx "DELETE" (some "Bearer admintok") deleteClientsBody
        adminDbEx).db.clients ≠ adminDbEx.clients ∧
    "clients" ∉ declaredTableNames := by
  decide

/-- C6: the claim says a mark-responded action from the inbox flips that
submission's status from unread to responded and the refresh shows it. The
code contradicts it twice: the inbox posts `{ id }` while the handler
requires `messageId`, so the request is answered 400 with the state
untouched; and even a request carrying `messageId` updates the `messages`
table, never `contact_submissions`, so the refreshed inbox still shows
`unread`. -/
theorem inboxMarkResponded_no_status_update :
    markRespondedHandler (some "Bearer admintok") inboxDbEx (inboxMarkBody "s1") =
      (400, inboxDbEx) ∧
    (markRespondedHandler (some "Bearer admintok") inboxDbEx
        { messageId := some "s1", id := none }).2.contact_submissions =
      inboxDbEx.contact_submissions ∧
    ((markRespondedHandler (some "Bearer admintok") inboxDbEx
        { messageId := some "s1", id := none }).2.contact_submissions.map
      (fun r => r.status)) = ["unread"] := by
  decide

/-- C7: processing the same `customer.subscription.*` event twice leaves the
clients table exactly as processing it once: the sync rewrites the matched
row to the same constant field values and touches neither `id` nor
`stripe_customer_id`, so the second pass finds the same row and rewrites it
identically. -/
theorem stripeWebhook_subscription_idempotent (db : WebhookDb) (eid1 eid2 : String)
    (cust subStatus : String) (cpe : Option Int) :
    (stripeWebhookHandler
        (stripeWebhookHandler db eid1 (StripeEvent.subscriptionChange cust subStatus cpe))
        eid2 (StripeEvent.subscriptionChange cust subStatus cpe)).clients =
      (stripeWebhookHandler db eid1
        (StripeEvent.subscriptionChange cust subStatus cpe)).clients := by
  show subSync cust subStatus cpe (subSync cust subStatus cpe db.clients) =
    subSync cust subStatus cpe db.clients
  exact subSync_idem cust subStatus cpe db.clients

/-- C8: the dashboard stats agree with the reference reduction stated in the
specification: totalTickets counts the rows, resolvedTickets counts the rows
with status `'responded'`, activeTickets is their difference, and the
average response time is the mean of the clamped minute differences over
rows with non-null `responded_at`, rounded to one decimal, 0 when there are
none. -/
theorem computeStats_matches_reference (rows : List SubmissionRow) :
    (computeStats rows).totalTickets = specTotalTickets rows ∧
    (computeStats rows).resolvedTickets = specResolvedTickets rows ∧
    (computeStats rows).activeTickets = specActiveTickets rows ∧
    (computeStats rows).avgResponseTime = specAvgResponseTime rows := by
  refine ⟨rfl, ?_, ?_, ?_⟩
  · simp [computeStats, specResolvedTickets, List.countP_eq_length_filter]
  · simp [computeStats, specActiveTickets, specTotalTickets, specResolvedTickets,
      List.countP_eq_length_filter]
  · simp only [computeStats, specAvgResponseTime]
    have hsum : (rows.filter (fun r => r.responded_at.isSome)).map responseMinutes =
        (rows.filter (fun r => r.responded_at.isSome)).map specResponseMinutes :=
      List.map_congr_left (fun r _ => responseMinutes_eq_spec r)
    by_cases h : (rows.filter (fun r => r.responded_at.isSome)).length = 0
    · rw [if_pos h, if_neg (by omega)]
      norm_num [jsRound]
    · rw [if_pos (Nat.pos_of_ne_zero h), if_neg h, hsum]

/-- C9: a dashboard fetch with no signed-in user or an absent client id
issues no query, raises no error, and leaves the stats untouched (so at
their zero defaults when nothing was fetched before) — it only clears the
loading flag. -/
theorem dashboard_guard_silent (user cid : Option String) (q : QueryResult)
    (st : HookState) (h : user = none ∨ cid = none) :
    computeStatsForClient user cid q st = ⟨⟨st.stats, false⟩, 0, false⟩ := by
  rcases h with h | h <;> subst h <;> simp [computeStatsForClient, strTruthy]

/-- Witness for C9: with no user the initial zero stats survive untouched. -/
theorem dashboard_guard_silent_witness :
    computeStatsForClient none (some "c1") QueryResult.dbError ⟨initialDashStats, true⟩ =
      ⟨⟨initialDashStats, false⟩, 0, false⟩ :=
  dashboard_guard_silent none (some "c1") QueryResult.dbError
    ⟨initialDashStats, true⟩ (Or.inl rfl)

/-- C10: an authorized delete request reaches the data store against exactly
the table its body names, even a table outside the declared allow-list — no
runtime check restricts `tableName`. -/
theorem adminDelete_no_allowlist_check (auth : String → Option String)
    (hdr : Option String) (t u : String) (body : DeleteBody) (db : AdminDb)
    (hhdr : bearerToken hdr = some t) (ht : t ≠ "") (hauth : auth t = some u)
    (hadmin : isAdminUser db.user_roles u = true)
    (hrid : strTruthy body.resourceId = true) (htab : strTruthy body.tableName = true)
    (hout : body.tableName.getD "" ∉ declaredTableNames) :
    (adminDelete auth "DELETE" hdr body db).effects =
      [DeleteEffect.deleteFrom (body.tableName.getD "") (body.resourceId.getD "")] := by
  have hresolve := getUserIdFromToken_some auth hdr t u hhdr ht hauth
  by_cases hz : (dbDelete db (body.tableName.getD "") (body.resourceId.getD "")).2 = 0 <;>
    simp [adminDelete, hresolve, hadmin, hrid, htab, hz]

/-- Witness for C10: the delete against the undeclared `clients` table. -/
theorem adminDelete_no_allowlist_check_witness :
    (adminDelete authEx "DELETE" (some "Bearer admintok") deleteClientsBody
        adminDbEx).effects = [DeleteEffect.deleteFrom "clients" "c1"] :=
  adminDelete_no_allowlist_check authEx (some "Bearer admintok") "admintok" "u-admin"
    deleteClientsBody adminDbEx (by decide) (by decide) (by decide) (by decide)
    (by decide) (by decide) (by decide)
